import Mathlib

/-!
Shallow embedding of the driverlog trip-planning core
(`trips/services.py`, `trips/views.py`, `trips/models.py`):
route estimation with its geodesic fallback, location interpolation along a
polyline, the ELD (hours-of-service) compliance plan generator, the trip
state-transition actions and the log-admission endpoint.

Python floats are modelled as `ℚ` (exact arithmetic), calendar dates as day
numbers (`ℕ`, `date.today()` becomes an explicit `start_date` parameter),
times of day as hours since midnight (`ℚ`).  `math.ceil` is `Int.ceil`,
`int(...)` truncation of the nonnegative quantities involved is
`Int.toNat ∘ Int.floor`, and Python float `%` on nonnegative operands is
`pymod` below.  The fallible operations are modelled with `Option`: the
`ZeroDivisionError` raised by `generate_compliance_plan` when the available
first-day allowance is zero, and the `ZeroDivisionError` raised inside the
daily loop when a rest stop's progress fraction divides by a zero
`total_distance_miles`.
-/

/-- A geographic coordinate (the `{'lat': .., 'lng': ..}` dictionaries of the
source). -/
structure Coord where
  lat : ℚ
  lng : ℚ
deriving DecidableEq

/-- Result of `ELDComplianceService._interpolate_location`: a coordinate plus
an address label. -/
structure LocResult where
  lat : ℚ
  lng : ℚ
  address : String
deriving DecidableEq

/-- `ELDComplianceService._interpolate_location`: find the location along the
route polyline (a list of `[lat, lng]` pairs) at the given progress fraction. -/
def interpolate_location (route_coordinates : List (ℚ × ℚ)) (progress : ℚ) :
    LocResult :=
  if route_coordinates = [] ∨ progress ≤ 0 then
    { lat := (route_coordinates.headD (0, 0)).1
      lng := (route_coordinates.headD (0, 0)).2
      address := "Route location" }
  else if 1 ≤ progress then
    { lat := (route_coordinates.getLastD (0, 0)).1
      lng := (route_coordinates.getLastD (0, 0)).2
      address := "Route location" }
  else
    let index : ℕ := (⌊progress * ((route_coordinates.length - 1 : ℕ) : ℚ)⌋).toNat
    let coord := route_coordinates.getD index (0, 0)
    { lat := coord.1
      lng := coord.2
      address := "Mile marker " ++ toString (⌊progress * 1000⌋).toNat }

/-- The polyline index `_interpolate_location` reads, as a function of the
polyline length and the progress fraction. -/
def interpIndex (n : ℕ) (progress : ℚ) : ℕ :=
  if progress ≤ 0 then 0
  else if 1 ≤ progress then n - 1
  else (⌊progress * ((n - 1 : ℕ) : ℚ)⌋).toNat

/-- One ELD duty-status log entry as generated by the planner (`log_date` as a
day number, `start_time` as hours since midnight). -/
structure EldLogEntry where
  log_date : ℕ
  duty_status : String
  start_time : ℚ
  duration_hours : ℚ
  remarks : String
deriving DecidableEq

/-- One planned rest stop (`scheduled_arrival` split into a day number and an
hour of day). -/
structure RestStopEntry where
  stop_type : String
  location : LocResult
  arrival_day : ℕ
  arrival_hour : ℚ
  duration_hours : ℚ
  distance_from_start_miles : ℚ
  is_mandatory : Bool
  hos_reason : String
deriving DecidableEq

/-- `ELDComplianceService._generate_daily_logs`. -/
def generate_daily_logs (log_date : ℕ) (drive_hours : ℚ) (is_first_day : Bool) :
    List EldLogEntry :=
  let opening : List EldLogEntry :=
    if is_first_day then
      [{ log_date := log_date, duty_status := "on_duty", start_time := 6
         duration_hours := 1, remarks := "Pre-trip inspection and trip planning" }]
    else
      [{ log_date := log_date, duty_status := "off_duty", start_time := 0
         duration_hours := 10, remarks := "Required 10-hour off-duty period" }]
  let start_hour : ℚ := if is_first_day then 7 else 10
  let driving_blocks : List EldLogEntry :=
    if drive_hours ≤ 8 then
      [{ log_date := log_date, duty_status := "driving", start_time := start_hour
         duration_hours := drive_hours, remarks := "Driving to destination" }]
    else
      [{ log_date := log_date, duty_status := "driving", start_time := start_hour
         duration_hours := 8, remarks := "Driving (first 8 hours)" },
       { log_date := log_date, duty_status := "off_duty", start_time := start_hour + 8
         duration_hours := 1/2, remarks := "Mandatory 30-minute break" },
       { log_date := log_date, duty_status := "driving"
         start_time := start_hour + 8 + 1/2
         duration_hours := drive_hours - 8, remarks := "Driving (after break)" }]
  opening ++ driving_blocks

/-- Python float `%` for the nonnegative operands used by the fuel-stop
heuristic (`distance_covered % 1000`). -/
def pymod (x m : ℚ) : ℚ := x - m * ⌊x / m⌋

/-- The allocation `daily_drive_hours` of one loop iteration of
`generate_compliance_plan` (`remaining` is `remaining_drive_hours` at the top
of the iteration). -/
def dailyAlloc (current_cycle_used_hours : ℚ) (day : ℕ) (remaining : ℚ) : ℚ :=
  if day = 0 then
    min remaining (min 11 (max 0 (70 - current_cycle_used_hours)))
  else
    min remaining 11

/-- Mutable state of the `for day in range(days_required)` loop of
`generate_compliance_plan`. -/
structure PlanState where
  rest_stops : List RestStopEntry
  eld_logs : List EldLogEntry
  remaining_drive_hours : ℚ
  distance_covered : ℚ

/-- One iteration of the `for day in range(days_required)` loop of
`ELDComplianceService.generate_compliance_plan`.  Each of the three stop
branches computes its progress fraction by dividing by
`total_distance_miles`, so when `total_distance_miles = 0` Python raises
`ZeroDivisionError` as soon as a break, fuel or rest stop is emitted this
iteration; `none` models that raise (the iteration completes only when no
stop is emitted or the distance is nonzero).  The `/ total_drive_hours`
divisions stay total: with `total_drive_hours = 0` the day count
`⌈0 / allowance⌉` is 0, so no iteration is ever reached with a zero
`total_drive_hours` denominator. -/
def plan_day (total_drive_hours total_distance_miles current_cycle_used_hours : ℚ)
    (route_coordinates : List (ℚ × ℚ)) (start_date day : ℕ) (st : PlanState) :
    Option PlanState :=
  let day_date := start_date + day
  let daily_drive_hours :=
    dailyAlloc current_cycle_used_hours day st.remaining_drive_hours
  let new_logs :=
    st.eld_logs ++ generate_daily_logs day_date daily_drive_hours (day = 0)
  let remaining := st.remaining_drive_hours - daily_drive_hours
  if total_distance_miles = 0 ∧
      (8 < daily_drive_hours
        ∨ (0 < st.distance_covered ∧ pymod st.distance_covered 1000 < 200)
        ∨ 0 < remaining) then
    none
  else
  let stops1 :=
    if 8 < daily_drive_hours then
      let distance_for_break :=
        st.distance_covered + (8 / total_drive_hours) * total_distance_miles
      st.rest_stops ++
        [{ stop_type := "break"
           location := interpolate_location route_coordinates
             (distance_for_break / total_distance_miles)
           arrival_day := day_date, arrival_hour := 12, duration_hours := 1/2
           distance_from_start_miles := distance_for_break, is_mandatory := true
           hos_reason := "30-minute break required after 8 hours driving" }]
    else st.rest_stops
  let stops2 :=
    if 0 < st.distance_covered ∧ pymod st.distance_covered 1000 < 200 then
      stops1 ++
        [{ stop_type := "fuel"
           location := interpolate_location route_coordinates
             (st.distance_covered / total_distance_miles)
           arrival_day := day_date, arrival_hour := 18, duration_hours := 1/2
           distance_from_start_miles := st.distance_covered, is_mandatory := false
           hos_reason := "Fuel stop (1000+ miles)" }]
    else stops1
  let covered :=
    st.distance_covered + (daily_drive_hours / total_drive_hours) * total_distance_miles
  let stops3 :=
    if 0 < remaining then
      stops2 ++
        [{ stop_type := "rest"
           location := interpolate_location route_coordinates
             (covered / total_distance_miles)
           arrival_day := day_date, arrival_hour := 22, duration_hours := 10
           distance_from_start_miles := covered, is_mandatory := true
           hos_reason := "Mandatory 10-hour rest before day " ++ toString (day + 2) }]
    else stops2
  some { rest_stops := stops3
         eld_logs := new_logs
         remaining_drive_hours := remaining
         distance_covered := covered }

/-- Run the daily loop of `generate_compliance_plan` for the day indices
`day, day + 1, …, day + n - 1`; a `ZeroDivisionError` in any iteration
(`plan_day = none`) aborts the loop and propagates. -/
def run_days (total_drive_hours total_distance_miles current_cycle_used_hours : ℚ)
    (route_coordinates : List (ℚ × ℚ)) (start_date : ℕ) :
    ℕ → ℕ → PlanState → Option PlanState
  | _, 0, st => some st
  | day, n + 1, st =>
      match plan_day total_drive_hours total_distance_miles current_cycle_used_hours
          route_coordinates start_date day st with
      | none => none
      | some st2 =>
          run_days total_drive_hours total_distance_miles current_cycle_used_hours
            route_coordinates start_date (day + 1) n st2

/-- The loop state of `generate_compliance_plan` before day 0:
`rest_stops = []`, `eld_logs = []`, `remaining_drive_hours = total_drive_hours`,
`distance_covered = 0`. -/
def planStart (total_drive_hours : ℚ) : PlanState :=
  { rest_stops := [], eld_logs := []
    remaining_drive_hours := total_drive_hours, distance_covered := 0 }

/-- The `compliance_summary` dictionary of `generate_compliance_plan`. -/
structure ComplianceSummary where
  total_drive_hours : ℚ
  total_on_duty_hours : ℚ
  days_required : ℤ
  cycle_hours_used : ℚ
deriving DecidableEq

/-- The dictionary returned by `generate_compliance_plan`. -/
structure CompliancePlan where
  rest_stops : List RestStopEntry
  eld_logs : List EldLogEntry
  total_days : ℤ
  compliance_summary : ComplianceSummary

/-- `ELDComplianceService.generate_compliance_plan`.  Arguments are the trip
fields the source reads: `trip.estimated_drive_time_hours`,
`trip.total_distance_miles`, `trip.current_cycle_used_hours`,
`trip.route_coordinates`, plus `date.today()` as `start_date`.  `none`
models the two `ZeroDivisionError` paths of the source: the division
`math.ceil(total_drive_hours / available_drive_hours)` when
`available_drive_hours = min(11, 70 - current_cycle_used_hours)` is zero
(raised before the loop starts, neither case special-cased), and a stop's
`… / total_distance_miles` progress fraction inside the loop when
`total_distance_miles` is zero (`plan_day = none`, aborting the loop). -/
def generate_compliance_plan (total_drive_hours total_distance_miles
    current_cycle_used_hours : ℚ) (route_coordinates : List (ℚ × ℚ))
    (start_date : ℕ) : Option CompliancePlan :=
  let total_on_duty_hours := total_drive_hours + 2
  let available_drive_hours := min 11 (70 - current_cycle_used_hours)
  if available_drive_hours = 0 then none
  else
    let days_required : ℤ := ⌈total_drive_hours / available_drive_hours⌉
    match run_days total_drive_hours total_distance_miles
        current_cycle_used_hours route_coordinates start_date 0 days_required.toNat
        (planStart total_drive_hours) with
    | none => none
    | some final =>
        some { rest_stops := final.rest_stops
               eld_logs := final.eld_logs
               total_days := days_required
               compliance_summary :=
                 { total_drive_hours := total_drive_hours
                   total_on_duty_hours := total_on_duty_hours
                   days_required := days_required
                   cycle_hours_used := current_cycle_used_hours + total_on_duty_hours } }

/-- The plan `generate_compliance_plan` returns when it does not raise: the
successful value of the call, extracted with an irrelevant default (the claim
theorems prove the call indeed returns `some` of this value under their
hypotheses, and the concrete evaluations sit on inputs where it succeeds). -/
def generate_compliance_plan_core (total_drive_hours total_distance_miles
    current_cycle_used_hours : ℚ) (route_coordinates : List (ℚ × ℚ))
    (start_date : ℕ) : CompliancePlan :=
  (generate_compliance_plan total_drive_hours total_distance_miles
      current_cycle_used_hours route_coordinates start_date).getD
    { rest_stops := [], eld_logs := [], total_days := 0
      compliance_summary :=
        { total_drive_hours := 0, total_on_duty_hours := 0
          days_required := 0, cycle_hours_used := 0 } }

/-- Total duration of the `driving` entries of a list of logs. -/
def drivingSum : List EldLogEntry → ℚ
  | [] => 0
  | l :: ls => (if l.duty_status = "driving" then l.duration_hours else 0) + drivingSum ls

/-- Total duration of the `driving` and `on_duty` (on duty, not driving)
entries of a list of logs. -/
def drivingOnDutySum : List EldLogEntry → ℚ
  | [] => 0
  | l :: ls =>
      (if l.duty_status = "driving" ∨ l.duty_status = "on_duty"
       then l.duration_hours else 0) + drivingOnDutySum ls

/-- The log entries of one calendar day. -/
def logsOn (dt : ℕ) (logs : List EldLogEntry) : List EldLogEntry :=
  logs.filter fun l => l.log_date = dt

/-- Ordering relation of `RestStop.Meta.ordering = ['distance_from_start_miles']`. -/
def stopLe (a b : RestStopEntry) : Prop :=
  a.distance_from_start_miles ≤ b.distance_from_start_miles

instance : DecidableRel stopLe := fun a b =>
  inferInstanceAs (Decidable (a.distance_from_start_miles ≤ b.distance_from_start_miles))

instance : IsTotal RestStopEntry stopLe :=
  ⟨fun a b => le_total a.distance_from_start_miles b.distance_from_start_miles⟩

instance : IsTrans RestStopEntry stopLe :=
  ⟨fun _ _ _ h1 h2 => le_trans h1 h2⟩

/-- The presentation ordering of rest stops: `RestStop.Meta.ordering` sorts by
`distance_from_start_miles` ascending when stops are read back. -/
def sortStopsByDistance (stops : List RestStopEntry) : List RestStopEntry :=
  List.insertionSort stopLe stops

/-- The result dictionary of `RouteCalculatorService.calculate_route` /
`_calculate_fallback_route` (coordinates as `[lat, lng]` pairs). -/
structure RouteResult where
  coordinates : List (ℚ × ℚ)
  distance_miles : ℚ
  duration_hours : ℚ
  instructions : List String
deriving DecidableEq

/-- `RouteCalculatorService._calculate_fallback_route`, parametric in the
external `geodesic` great-circle distance function (miles). -/
def calculate_fallback_route (geodesic : Coord → Coord → ℚ)
    (current pickup dropoff : Coord) : RouteResult :=
  let current_to_pickup := geodesic current pickup
  let pickup_to_dropoff := geodesic pickup dropoff
  let total_distance := current_to_pickup + pickup_to_dropoff
  let estimated_hours := total_distance / 55
  { coordinates := [(current.lat, current.lng), (pickup.lat, pickup.lng),
      (dropoff.lat, dropoff.lng)]
    distance_miles := total_distance
    duration_hours := estimated_hours
    instructions :=
      ["Drive " ++ toString current_to_pickup ++ " miles to pickup location",
       "Drive " ++ toString pickup_to_dropoff ++ " miles to dropoff location"] }

/-- A successfully parsed provider response (first feature / first segment
already extracted), with coordinates in the provider's `(lng, lat)` order. -/
structure ProviderRoute where
  coordinates : List (ℚ × ℚ)
  distance : ℚ
  duration : ℚ
  instructions : List String

/-- `RouteCalculatorService.calculate_route`.  `provider = none` models any
provider failure (exception, malformed response or falsy response): the
source catches every exception and always falls back. -/
def calculate_route (geodesic : Coord → Coord → ℚ) (provider : Option ProviderRoute)
    (current pickup dropoff : Coord) : RouteResult :=
  match provider with
  | some r =>
      { coordinates := r.coordinates.map fun coord => (coord.2, coord.1)
        distance_miles := r.distance
        duration_hours := r.duration
        instructions := r.instructions }
  | none => calculate_fallback_route geodesic current pickup dropoff

/-- Modelled from the spec: the geodesic (great-circle) distance in miles is
external to this repository (`geopy.distance.geodesic`).  The claims use only
that it is nonnegative and vanishes between identical coordinates, which any
great-circle distance satisfies; this executable stand-in has exactly those
properties (69 miles per degree of taxicab separation). -/
def geodesicModel (a b : Coord) : ℚ := 69 * (|a.lat - b.lat| + |a.lng - b.lng|)

/-- Trip status (`Trip.STATUS_CHOICES`). -/
inductive TripStatus
  | planned
  | active
  | completed
  | cancelled
deriving DecidableEq

/-- The trip fields the state-transition views read and write (`timezone.now()`
modelled as a rational timestamp). -/
structure TripState where
  status : TripStatus
  trip_start_time : Option ℚ
  trip_end_time : Option ℚ
deriving DecidableEq

/-- Outcome of a state-transition view: the saved trip, the HTTP status code
and the response message. -/
structure ActionResult where
  trip : TripState
  http_status : ℕ
  message : String
deriving DecidableEq

/-- `TripViewSet.start_trip`. -/
def start_trip (t : TripState) (now : ℚ) : ActionResult :=
  { trip := { t with status := TripStatus.active, trip_start_time := some now }
    http_status := 200
    message := "Trip started successfully" }

/-- `TripViewSet.end_trip`. -/
def end_trip (t : TripState) (now : ℚ) : ActionResult :=
  if t.status = TripStatus.cancelled then
    { trip := t, http_status := 403, message := "Cannot complete a cancelled trip" }
  else
    { trip := { t with status := TripStatus.completed, trip_end_time := some now }
      http_status := 200
      message := "Trip started successfully" }

/-- `TripViewSet.cancel_trip`. -/
def cancel_trip (t : TripState) (now : ℚ) : ActionResult :=
  if t.status = TripStatus.completed then
    { trip := t, http_status := 403, message := "Cannot cancel trip" }
  else
    { trip := { t with status := TripStatus.cancelled, trip_end_time := some now }
      http_status := 200
      message := "Trip cancelled successfully" }

/-- The fields of an `ELDLog` row that `ELDLog.clean` reads. -/
structure LogEntry where
  log_date : ℕ
  duty_status : String
  duration_hours : ℚ
deriving DecidableEq

/-- Same-day `driving` total of the already stored entries
(the `daily_driving` aggregate of `ELDLog.clean`). -/
def dailyDrivingTotal (stored : List LogEntry) (e : LogEntry) : ℚ :=
  drivingTotalOn e.log_date stored
where
  drivingTotalOn (dt : ℕ) : List LogEntry → ℚ
    | [] => 0
    | l :: ls =>
        (if l.log_date = dt ∧ l.duty_status = "driving" then l.duration_hours else 0)
          + drivingTotalOn dt ls

/-- `ELDLog.clean`: the model-level validation run by `ELDLog.save`. -/
def eldlog_clean (stored : List LogEntry) (e : LogEntry) : Except String Unit :=
  if e.duration_hours ≤ 0 then
    Except.error "Duration must be positive"
  else if e.duty_status = "driving" ∧ 11 < dailyDrivingTotal stored e + e.duration_hours then
    Except.error "Daily driving limit of 11 hours exceeded"
  else
    Except.ok ()

/-- Outcome of the `add_log` view: HTTP status, response message and the
stored entries afterwards. -/
structure AddLogResult where
  http_status : ℕ
  message : String
  stored : List LogEntry
deriving DecidableEq

/-- `TripViewSet.add_log`.  `serializer_valid` models the outcome of
`ELDLogCreateSerializer.is_valid()` (external DRF payload validation); when it
is false the source skips the save but still falls through to the 201
response.  A save whose `clean` raises is caught and becomes a 400. -/
def add_log (serializer_valid : Bool) (stored : List LogEntry) (e : LogEntry) :
    AddLogResult :=
  if serializer_valid then
    match eldlog_clean stored e with
    | Except.ok _ =>
        { http_status := 201, message := "Log added successfully", stored := stored ++ [e] }
    | Except.error msg =>
        { http_status := 400, message := msg, stored := stored }
  else
    { http_status := 201, message := "Log added successfully", stored := stored }

/-! ## Helper lemmas about the duty-log sums -/

theorem drivingSum_append (xs ys : List EldLogEntry) :
    drivingSum (xs ++ ys) = drivingSum xs + drivingSum ys := by
  induction xs with
  | nil => simp [drivingSum]
  | cons x xs ih => simp [drivingSum, ih]; ring

theorem drivingOnDutySum_append (xs ys : List EldLogEntry) :
    drivingOnDutySum (xs ++ ys) = drivingOnDutySum xs + drivingOnDutySum ys := by
  induction xs with
  | nil => simp [drivingOnDutySum]
  | cons x xs ih => simp [drivingOnDutySum, ih]; ring

theorem drivingSum_daily (d : ℕ) (h : ℚ) (f : Bool) :
    drivingSum (generate_daily_logs d h f) = h := by
  rcases f with _ | _ <;> simp only [generate_daily_logs] <;>
    split_ifs with h8 <;> simp [drivingSum]

theorem drivingOnDutySum_daily (d : ℕ) (h : ℚ) (f : Bool) :
    drivingOnDutySum (generate_daily_logs d h f) = h + (if f then 1 else 0) := by
  rcases f with _ | _ <;> simp only [generate_daily_logs] <;>
    split_ifs with h8 <;> simp [drivingOnDutySum] <;> ring

theorem generate_daily_logs_date (d : ℕ) (h : ℚ) (f : Bool) :
    ∀ l ∈ generate_daily_logs d h f, l.log_date = d := by
  rcases f with _ | _ <;> simp only [generate_daily_logs] <;>
    split_ifs with h8 <;> simp

theorem logsOn_append (dt : ℕ) (xs ys : List EldLogEntry) :
    logsOn dt (xs ++ ys) = logsOn dt xs ++ logsOn dt ys := by
  simp [logsOn, List.filter_append]

theorem logsOn_eq_self (dt : ℕ) (logs : List EldLogEntry)
    (h : ∀ l ∈ logs, l.log_date = dt) : logsOn dt logs = logs := by
  simpa [logsOn, List.filter_eq_self] using h

theorem logsOn_eq_nil (dt : ℕ) (logs : List EldLogEntry)
    (h : ∀ l ∈ logs, l.log_date ≠ dt) : logsOn dt logs = [] := by
  simpa [logsOn, List.filter_eq_nil_iff] using h

/-! ## Helper lemmas about one loop iteration and the whole loop -/

theorem plan_day_spec (T D c : ℚ) (r : List (ℚ × ℚ)) (s day : ℕ) (st st2 : PlanState)
    (h : plan_day T D c r s day st = some st2) :
    st2.eld_logs = st.eld_logs ++ generate_daily_logs (s + day)
        (dailyAlloc c day st.remaining_drive_hours) (decide (day = 0))
      ∧ st2.remaining_drive_hours
        = st.remaining_drive_hours - dailyAlloc c day st.remaining_drive_hours := by
  simp only [plan_day] at h
  split at h
  · exact absurd h (by simp)
  · injection h with h2
    subst h2
    exact ⟨rfl, rfl⟩

theorem plan_day_isSome (T D c : ℚ) (r : List (ℚ × ℚ)) (s day : ℕ) (st : PlanState)
    (hD : D ≠ 0) : ∃ st2, plan_day T D c r s day st = some st2 := by
  simp only [plan_day]
  split
  · rename_i hz
    exact absurd hz.1 hD
  · exact ⟨_, rfl⟩

theorem run_days_some (T D c : ℚ) (r : List (ℚ × ℚ)) (s : ℕ) (hD : D ≠ 0) :
    ∀ (n day : ℕ) (st : PlanState),
      ∃ final, run_days T D c r s day n st = some final := by
  intro n
  induction n with
  | zero => intro day st; exact ⟨st, rfl⟩
  | succ n ih =>
      intro day st
      obtain ⟨st2, h2⟩ := plan_day_isSome T D c r s day st hD
      obtain ⟨final, hf⟩ := ih (day + 1) st2
      refine ⟨final, ?_⟩
      simp only [run_days, h2]
      exact hf

theorem dailyAlloc_nonneg (c : ℚ) (day : ℕ) (rem : ℚ) (hrem : 0 ≤ rem) :
    0 ≤ dailyAlloc c day rem := by
  unfold dailyAlloc
  split
  · exact le_min hrem (le_min (by norm_num) (le_max_left _ _))
  · exact le_min hrem (by norm_num)

theorem dailyAlloc_le_eleven (c : ℚ) (day : ℕ) (rem : ℚ) :
    dailyAlloc c day rem ≤ 11 := by
  unfold dailyAlloc
  split
  · exact le_trans (min_le_right _ _) (min_le_left _ _)
  · exact min_le_right _ _

theorem run_days_drivingSum (T D c : ℚ) (r : List (ℚ × ℚ)) (s : ℕ) :
    ∀ (n day : ℕ) (st final : PlanState),
      run_days T D c r s day n st = some final →
      drivingSum final.eld_logs
        = drivingSum st.eld_logs
          + (st.remaining_drive_hours - final.remaining_drive_hours) := by
  intro n
  induction n with
  | zero =>
      intro day st final h
      simp only [run_days] at h
      injection h with h2
      subst h2
      ring
  | succ n ih =>
      intro day st final h
      cases hpd : plan_day T D c r s day st with
      | none => simp [run_days, hpd] at h
      | some st2 =>
          simp only [run_days, hpd] at h
          obtain ⟨hlog, hrem⟩ := plan_day_spec T D c r s day st st2 hpd
          rw [ih (day + 1) st2 final h, hlog, drivingSum_append, drivingSum_daily,
            hrem]
          ring

theorem sub_min_eleven (rem : ℚ) : rem - min rem 11 = max 0 (rem - 11) := by
  rcases le_total rem 11 with h | h
  · simp [min_eq_left h, max_eq_left (by linarith : rem - 11 ≤ 0)]
  · simp [min_eq_right h, max_eq_right (by linarith : (0:ℚ) ≤ rem - 11)]

theorem max_zero_sub_shift (a b : ℚ) (hb : 0 ≤ b) :
    max 0 (max 0 a - b) = max 0 (a - b) := by
  rcases le_total a 0 with h | h
  · rw [max_eq_left h, max_eq_left (by linarith), max_eq_left (by linarith)]
  · rw [max_eq_right h]

theorem run_days_remaining (T D c : ℚ) (r : List (ℚ × ℚ)) (s : ℕ) :
    ∀ (n day : ℕ) (st final : PlanState), day ≠ 0 →
      0 ≤ st.remaining_drive_hours →
      run_days T D c r s day n st = some final →
      final.remaining_drive_hours
        = max 0 (st.remaining_drive_hours - 11 * n) := by
  intro n
  induction n with
  | zero =>
      intro day st final _ hrem h
      simp only [run_days] at h
      injection h with h2
      subst h2
      simp [max_eq_right hrem]
  | succ n ih =>
      intro day st final hday hrem h
      have hd : dailyAlloc c day st.remaining_drive_hours
          = min st.remaining_drive_hours 11 := by
        simp [dailyAlloc, hday]
      cases hpd : plan_day T D c r s day st with
      | none => simp [run_days, hpd] at h
      | some st2 =>
          simp only [run_days, hpd] at h
          obtain ⟨hlog, hrem2⟩ := plan_day_spec T D c r s day st st2 hpd
          have hst2 : st2.remaining_drive_hours
              = max 0 (st.remaining_drive_hours - 11) := by
            rw [hrem2, hd, sub_min_eleven]
          rw [ih (day + 1) st2 final (Nat.succ_ne_zero day)
              (by rw [hst2]; exact le_max_left _ _) h,
            hst2, max_zero_sub_shift _ _ (by positivity)]
          push_cast
          ring_nf

theorem sub_min_eq_max (a b : ℚ) : a - min a b = max 0 (a - b) := by
  rcases le_total a b with h | h
  · simp [min_eq_left h, max_eq_left (by linarith : a - b ≤ 0)]
  · simp [min_eq_right h, max_eq_right (by linarith : (0:ℚ) ≤ a - b)]

theorem available_pos (c : ℚ) (hc : c < 70) : 0 < min 11 (70 - c) :=
  lt_min (by norm_num) (by linarith)

theorem dailyAlloc_zero (T c : ℚ) (hc : c < 70) :
    dailyAlloc c 0 T = min T (min 11 (70 - c)) := by
  simp [dailyAlloc, max_eq_right (by linarith : (0:ℚ) ≤ 70 - c)]

theorem final_remaining_zero (T D c : ℚ) (r : List (ℚ × ℚ)) (s : ℕ)
    (hT : 0 < T) (hc : c < 70) (final : PlanState)
    (h : run_days T D c r s 0 (⌈T / min 11 (70 - c)⌉ : ℤ).toNat (planStart T)
      = some final) :
    final.remaining_drive_hours = 0 := by
  have hApos : 0 < min 11 (70 - c) := available_pos c hc
  have hA11 : min 11 (70 - c) ≤ 11 := min_le_left _ _
  have hd1 : 1 ≤ (⌈T / min 11 (70 - c)⌉ : ℤ) :=
    Int.ceil_pos.mpr (div_pos hT hApos)
  have hTd : T ≤ min 11 (70 - c) * ((⌈T / min 11 (70 - c)⌉ : ℤ) : ℚ) := by
    have h1 : T / min 11 (70 - c) ≤ ((⌈T / min 11 (70 - c)⌉ : ℤ) : ℚ) := Int.le_ceil _
    calc T = (T / min 11 (70 - c)) * min 11 (70 - c) := by field_simp
    _ ≤ ((⌈T / min 11 (70 - c)⌉ : ℤ) : ℚ) * min 11 (70 - c) :=
        mul_le_mul_of_nonneg_right h1 hApos.le
    _ = min 11 (70 - c) * ((⌈T / min 11 (70 - c)⌉ : ℤ) : ℚ) := by ring
  obtain ⟨n, hn⟩ : ∃ n : ℕ, (⌈T / min 11 (70 - c)⌉ : ℤ).toNat = n + 1 :=
    ⟨(⌈T / min 11 (70 - c)⌉ : ℤ).toNat - 1, by omega⟩
  have hnc : ((n : ℚ)) = ((⌈T / min 11 (70 - c)⌉ : ℤ) : ℚ) - 1 := by
    have h2 : ((⌈T / min 11 (70 - c)⌉ : ℤ).toNat : ℤ) = ⌈T / min 11 (70 - c)⌉ :=
      Int.toNat_of_nonneg (by omega)
    have h3 : ((n : ℤ) + 1 : ℤ) = ⌈T / min 11 (70 - c)⌉ := by
      rw [← h2, hn]; push_cast; ring
    have h4 : ((n : ℚ) + 1) = ((⌈T / min 11 (70 - c)⌉ : ℤ) : ℚ) := by
      exact_mod_cast congrArg (fun z : ℤ => (z : ℚ)) h3
    linarith
  rw [hn] at h
  have hle : T - min 11 (70 - c) - 11 * (n : ℚ) ≤ 0 := by
    have h5 : min 11 (70 - c) * ((n : ℚ) + 1) ≤ min 11 (70 - c) + 11 * (n : ℚ) := by
      have h6 : min 11 (70 - c) * (n : ℚ) ≤ 11 * (n : ℚ) :=
        mul_le_mul_of_nonneg_right hA11 (by positivity)
      nlinarith
    have h7 : T ≤ min 11 (70 - c) + 11 * (n : ℚ) := by
      rw [hnc] at h5 ⊢
      nlinarith [hTd]
    linarith
  cases hpd : plan_day T D c r s 0 (planStart T) with
  | none => simp [run_days, hpd] at h
  | some st2 =>
      simp only [run_days, hpd] at h
      obtain ⟨hlog2, hrem2⟩ := plan_day_spec T D c r s 0 (planStart T) st2 hpd
      have hfirst : st2.remaining_drive_hours = max 0 (T - min 11 (70 - c)) := by
        rw [hrem2]
        show T - dailyAlloc c 0 T = _
        rw [dailyAlloc_zero T c hc, sub_min_eq_max]
      rw [run_days_remaining T D c r s n 1 st2 final one_ne_zero
          (by rw [hfirst]; exact le_max_left _ _) h,
        hfirst, max_zero_sub_shift _ _ (by positivity)]
      exact max_eq_left hle

theorem generate_plan_success (T D c : ℚ) (route : List (ℚ × ℚ)) (s : ℕ)
    (hD : D ≠ 0) (hc : c < 70) :
    ∃ final,
      run_days T D c route s 0 (⌈T / min 11 (70 - c)⌉ : ℤ).toNat (planStart T)
          = some final
        ∧ generate_compliance_plan T D c route s
          = some (generate_compliance_plan_core T D c route s)
        ∧ generate_compliance_plan_core T D c route s
          = { rest_stops := final.rest_stops
              eld_logs := final.eld_logs
              total_days := ⌈T / min 11 (70 - c)⌉
              compliance_summary :=
                { total_drive_hours := T
                  total_on_duty_hours := T + 2
                  days_required := ⌈T / min 11 (70 - c)⌉
                  cycle_hours_used := c + (T + 2) } } := by
  obtain ⟨final, hrun⟩ := run_days_some T D c route s hD _ 0 (planStart T)
  have hgen : generate_compliance_plan T D c route s
      = some { rest_stops := final.rest_stops
               eld_logs := final.eld_logs
               total_days := ⌈T / min 11 (70 - c)⌉
               compliance_summary :=
                 { total_drive_hours := T
                   total_on_duty_hours := T + 2
                   days_required := ⌈T / min 11 (70 - c)⌉
                   cycle_hours_used := c + (T + 2) } } := by
    simp only [generate_compliance_plan]
    rw [if_neg (ne_of_gt (available_pos c hc)), hrun]
  have hcore : generate_compliance_plan_core T D c route s
      = { rest_stops := final.rest_stops
          eld_logs := final.eld_logs
          total_days := ⌈T / min 11 (70 - c)⌉
          compliance_summary :=
            { total_drive_hours := T
              total_on_duty_hours := T + 2
              days_required := ⌈T / min 11 (70 - c)⌉
              cycle_hours_used := c + (T + 2) } } := by
    unfold generate_compliance_plan_core
    rw [hgen]
    rfl
  exact ⟨final, hrun, by rw [hgen, hcore], hcore⟩

theorem plan_zero_distance_fails :
    generate_compliance_plan 20 0 65 [(0,0),(1,1)] 0 = none := by
  norm_num [generate_compliance_plan, run_days, plan_day, dailyAlloc, planStart]

/-- C1: for every trip input with `total_drive_hours > 0`,
`0 ≤ cycle_used_hours < 70` and a route of nonzero total distance (with a
zero distance the loop's rest-stop progress division raises
`ZeroDivisionError` and no plan is generated), the compliance plan is
produced and both its `total_days` and its summary's `days_required` equal
`⌈total_drive_hours / min(11, 70 − cycle_used_hours)⌉` — the ceiling is
computed once from the first day's capped allowance, never recomputed per
day (so cycle_used = 65, total = 20 gives available 5 and 4 days, shown in
the witness). -/
theorem claim_C1_days_required (T D c : ℚ) (route : List (ℚ × ℚ)) (s : ℕ)
    (hT : 0 < T) (hc0 : 0 ≤ c) (hc : c < 70) (hD : D ≠ 0) :
    generate_compliance_plan T D c route s
        = some (generate_compliance_plan_core T D c route s)
      ∧ (generate_compliance_plan_core T D c route s).total_days
        = ⌈T / min 11 (70 - c)⌉
      ∧ (generate_compliance_plan_core T D c route s).compliance_summary.days_required
        = ⌈T / min 11 (70 - c)⌉ := by
  obtain ⟨final, hrun, hsome, hcore⟩ := generate_plan_success T D c route s hD hc
  exact ⟨hsome, by rw [hcore], by rw [hcore]⟩

theorem claim_C1_days_required_witness :
    (0:ℚ) < 20 ∧ (0:ℚ) ≤ 65 ∧ (65:ℚ) < 70 ∧ (1000:ℚ) ≠ 0
      ∧ generate_compliance_plan 20 1000 65 [(0,0),(1,1)] 0
        = some (generate_compliance_plan_core 20 1000 65 [(0,0),(1,1)] 0)
      ∧ (generate_compliance_plan_core 20 1000 65 [(0,0),(1,1)] 0).total_days = 4 := by
  have h := claim_C1_days_required 20 1000 65 [(0,0),(1,1)] 0
    (by norm_num) (by norm_num) (by norm_num) (by norm_num)
  refine ⟨by norm_num, by norm_num, by norm_num, by norm_num, h.1, ?_⟩
  rw [h.2.1, show ((min 11 (70 - 65) : ℚ)) = 5 by norm_num]
  norm_num

/-- C2: for every generated plan (`total_drive_hours > 0`,
`0 ≤ cycle_used_hours < 70`, nonzero total distance so that the plan is
generated at all) the total duration of the Driving segments over all days
equals `total_drive_hours` to within `1e-6` (in the exact rational model the
two are equal). -/
theorem claim_C2_driving_total (T D c : ℚ) (route : List (ℚ × ℚ)) (s : ℕ)
    (hT : 0 < T) (hc0 : 0 ≤ c) (hc : c < 70) (hD : D ≠ 0) :
    generate_compliance_plan T D c route s
        = some (generate_compliance_plan_core T D c route s)
      ∧ |drivingSum (generate_compliance_plan_core T D c route s).eld_logs - T|
        ≤ 1 / 1000000 := by
  obtain ⟨final, hrun, hsome, hcore⟩ := generate_plan_success T D c route s hD hc
  refine ⟨hsome, ?_⟩
  have h1 := run_days_drivingSum T D c route s _ 0 (planStart T) final hrun
  have h2 := final_remaining_zero T D c route s hT hc final hrun
  rw [hcore]
  show |drivingSum final.eld_logs - T| ≤ 1 / 1000000
  have h0 : drivingSum (planStart T).eld_logs = 0 := rfl
  have h3 : (planStart T).remaining_drive_hours = T := rfl
  rw [h1, h2, h0, h3]
  norm_num

theorem claim_C2_driving_total_witness :
    (0:ℚ) < 20 ∧ (0:ℚ) ≤ 65 ∧ (65:ℚ) < 70 ∧ (1000:ℚ) ≠ 0
      ∧ |drivingSum (generate_compliance_plan_core 20 1000 65 [(0,0),(1,1)] 0).eld_logs
          - 20| ≤ 1 / 1000000 :=
  ⟨by norm_num, by norm_num, by norm_num, by norm_num,
    (claim_C2_driving_total 20 1000 65 [(0,0),(1,1)] 0
      (by norm_num) (by norm_num) (by norm_num) (by norm_num)).2⟩

/-- C4: with `cycle_used_hours = 70` the available first-day allowance
`min(11, 70 − 70)` is zero and `generate_compliance_plan` does not return a
plan: the `days_required` division is not special-cased in the source, and the
`ZeroDivisionError` is modelled by `none`. -/
theorem claim_C4_zero_available_fails (T D : ℚ) (route : List (ℚ × ℚ)) (s : ℕ)
    (hT : 0 < T) :
    generate_compliance_plan T D 70 route s = none := by
  norm_num [generate_compliance_plan]

theorem claim_C4_zero_available_fails_witness :
    (0:ℚ) < 5 ∧ generate_compliance_plan 5 100 70 [(0,0),(1,1)] 0 = none :=
  ⟨by norm_num, claim_C4_zero_available_fails 5 100 [(0,0),(1,1)] 0 (by norm_num)⟩

theorem ite_bool_le_one (f : Bool) : (if f then (1:ℚ) else 0) ≤ 1 := by
  cases f <;> norm_num

theorem run_days_caps (T D c : ℚ) (r : List (ℚ × ℚ)) (s : ℕ) :
    ∀ (n day : ℕ) (st final : PlanState) (dt : ℕ),
      run_days T D c r s day n st = some final →
      0 ≤ st.remaining_drive_hours →
      (∀ l ∈ st.eld_logs, l.log_date < s + day) →
      drivingSum (logsOn dt st.eld_logs) ≤ 11 →
      drivingOnDutySum (logsOn dt st.eld_logs) ≤ 14 →
      drivingSum (logsOn dt final.eld_logs) ≤ 11
        ∧ drivingOnDutySum (logsOn dt final.eld_logs) ≤ 14 := by
  intro n
  induction n with
  | zero =>
      intro day st final dt h _ _ h1 h2
      simp only [run_days] at h
      injection h with h3
      subst h3
      exact ⟨h1, h2⟩
  | succ n ih =>
      intro day st final dt h hrem hdate h1 h2
      have halloc0 : 0 ≤ dailyAlloc c day st.remaining_drive_hours :=
        dailyAlloc_nonneg c day _ hrem
      have halloc11 : dailyAlloc c day st.remaining_drive_hours ≤ 11 :=
        dailyAlloc_le_eleven c day _
      cases hpd : plan_day T D c r s day st with
      | none => simp [run_days, hpd] at h
      | some st2 =>
        simp only [run_days, hpd] at h
        obtain ⟨hlog, hrem2⟩ := plan_day_spec T D c r s day st st2 hpd
        apply ih (day + 1) st2 final dt h
        · rw [hrem2]
          have : dailyAlloc c day st.remaining_drive_hours ≤ st.remaining_drive_hours := by
            unfold dailyAlloc; split <;> exact min_le_left _ _
          linarith
        · rw [hlog]
          intro l hl
          rcases List.mem_append.mp hl with hmem | hmem
          · exact lt_trans (hdate l hmem) (by omega)
          · rw [generate_daily_logs_date _ _ _ l hmem]; omega
        · rw [hlog, logsOn_append, drivingSum_append]
          by_cases hdt : dt = s + day
          · have hold : logsOn dt st.eld_logs = [] :=
              logsOn_eq_nil _ _ (fun l hl => by have := hdate l hl; omega)
            have hblock := logsOn_eq_self dt
              (generate_daily_logs (s + day)
                (dailyAlloc c day st.remaining_drive_hours) (decide (day = 0)))
              (fun l hl => by rw [generate_daily_logs_date _ _ _ l hl, hdt])
            rw [hold, hblock, drivingSum_daily]
            simpa [drivingSum] using halloc11
          · have hblock : logsOn dt (generate_daily_logs (s + day)
                (dailyAlloc c day st.remaining_drive_hours) (decide (day = 0))) = [] :=
              logsOn_eq_nil _ _
                (fun l hl => by rw [generate_daily_logs_date _ _ _ l hl]; omega)
            rw [hblock]
            simpa [drivingSum] using h1
        · rw [hlog, logsOn_append, drivingOnDutySum_append]
          by_cases hdt : dt = s + day
          · have hold : logsOn dt st.eld_logs = [] :=
              logsOn_eq_nil _ _ (fun l hl => by have := hdate l hl; omega)
            have hblock := logsOn_eq_self dt
              (generate_daily_logs (s + day)
                (dailyAlloc c day st.remaining_drive_hours) (decide (day = 0)))
              (fun l hl => by rw [generate_daily_logs_date _ _ _ l hl, hdt])
            rw [hold, hblock, drivingOnDutySum_daily]
            have := ite_bool_le_one (decide (day = 0))
            simp only [drivingOnDutySum]
            linarith
          · have hblock : logsOn dt (generate_daily_logs (s + day)
                (dailyAlloc c day st.remaining_drive_hours) (decide (day = 0))) = [] :=
              logsOn_eq_nil _ _
                (fun l hl => by rw [generate_daily_logs_date _ _ _ l hl]; omega)
            rw [hblock]
            simpa [drivingOnDutySum] using h2

/-- C3: in every generated plan (`total_drive_hours > 0`,
`0 ≤ cycle_used_hours < 70`, nonzero total distance so that the plan is
generated at all) and on every calendar day, the Driving segments sum to at
most 11 hours and the Driving plus OnDutyNotDriving segments sum to at most
14 hours. -/
theorem claim_C3_daily_caps (T D c : ℚ) (route : List (ℚ × ℚ)) (s : ℕ) (dt : ℕ)
    (hT : 0 < T) (hc0 : 0 ≤ c) (hc : c < 70) (hD : D ≠ 0) :
    generate_compliance_plan T D c route s
        = some (generate_compliance_plan_core T D c route s)
      ∧ drivingSum (logsOn dt (generate_compliance_plan_core T D c route s).eld_logs) ≤ 11
      ∧ drivingOnDutySum
          (logsOn dt (generate_compliance_plan_core T D c route s).eld_logs) ≤ 14 := by
  obtain ⟨final, hrun, hsome, hcore⟩ := generate_plan_success T D c route s hD hc
  refine ⟨hsome, ?_⟩
  rw [hcore]
  show drivingSum (logsOn dt final.eld_logs) ≤ 11
    ∧ drivingOnDutySum (logsOn dt final.eld_logs) ≤ 14
  exact run_days_caps T D c route s _ 0 (planStart T) final dt hrun hT.le
    (by intro l hl; simp [planStart] at hl)
    (by simp [planStart, logsOn, drivingSum])
    (by simp [planStart, logsOn, drivingOnDutySum])

theorem claim_C3_daily_caps_witness :
    (0:ℚ) < 20 ∧ (0:ℚ) ≤ 65 ∧ (65:ℚ) < 70 ∧ (1000:ℚ) ≠ 0
      ∧ drivingSum (logsOn 1 (generate_compliance_plan_core 20 1000 65
          [(0,0),(1,1)] 0).eld_logs) ≤ 11
      ∧ drivingOnDutySum (logsOn 1 (generate_compliance_plan_core 20 1000 65
          [(0,0),(1,1)] 0).eld_logs) ≤ 14 := by
  have h := claim_C3_daily_caps 20 1000 65 [(0,0),(1,1)] 0 1
    (by norm_num) (by norm_num) (by norm_num) (by norm_num)
  exact ⟨by norm_num, by norm_num, by norm_num, by norm_num, h.2.1, h.2.2⟩

/-- C5 evaluation: at the spec's own Scenario B input (`cycle_used = 65`,
`total_drive_hours = 20`) the generated plan contains a Driving segment of
duration 0 (day 4 has no remaining drive hours, but the loop still emits a
driving block), contradicting the model validation `ELDLog.clean`, which
rejects `duration_hours ≤ 0` with "Duration must be positive", and the spec's
`duration_hours > 0` invariant. -/
theorem claim_C5_zero_duration_driving :
    ∃ l ∈ (generate_compliance_plan_core 20 1000 65 [(0,0),(1,1)] 0).eld_logs,
      l.duty_status = "driving" ∧ l.duration_hours = 0 := by
  simp only [generate_compliance_plan_core, generate_compliance_plan]
  norm_num [planStart, run_days, plan_day, dailyAlloc, generate_daily_logs,
    Option.getD_some]

/-- C6 counterexample: at `total_drive_hours = 30`, `total_distance = 3000`,
`cycle_used = 0` the list returned by `generate_compliance_plan` has rest-stop
distances `[800, 1100, 1900, 1100, 2200]` — day 2's fuel stop (anchored at the
distance covered before the day) is appended after that day's break stop
(anchored 800 miles further), so the returned sequence is not sorted by
`distance_from_start_miles`. -/
theorem claim_C6_counterexample :
    ¬ List.Sorted (· ≤ ·)
      (((generate_compliance_plan_core 30 3000 0 [(0,0),(1,1)] 0).rest_stops).map
        fun stop => stop.distance_from_start_miles) := by
  have hd : (⌈(30:ℚ)/(min 11 (70 - 0) : ℚ)⌉ : ℤ) = 3 := by
    rw [show ((min 11 (70 - 0) : ℚ)) = 11 by norm_num, Int.ceil_eq_iff]
    norm_num
  simp only [generate_compliance_plan_core, generate_compliance_plan, hd]
  norm_num [planStart, run_days, plan_day, dailyAlloc, generate_daily_logs, pymod,
    List.Sorted, List.pairwise_cons, Option.getD_some]

/-- C6 amended: the sequence `generate_compliance_plan` itself returns is in
per-day emission order and need not be distance-sorted; the ascending
presentation comes from the `RestStop` model's default ordering
(`Meta.ordering = ['distance_from_start_miles']`), i.e. sorting the collected
stops by `distance_from_start_miles` yields an ascending sequence. -/
theorem claim_C6_sorted_by_meta_ordering (T D c : ℚ) (route : List (ℚ × ℚ)) (s : ℕ)
    (hT : 0 < T) (hc0 : 0 ≤ c) (hc : c < 70) (hD : D ≠ 0) :
    generate_compliance_plan T D c route s
        = some (generate_compliance_plan_core T D c route s)
      ∧ List.Sorted (· ≤ ·)
          ((sortStopsByDistance
            (generate_compliance_plan_core T D c route s).rest_stops).map
              fun stop => stop.distance_from_start_miles) := by
  obtain ⟨final, hrun, hsome, hcore⟩ := generate_plan_success T D c route s hD hc
  refine ⟨hsome, ?_⟩
  have h := List.sorted_insertionSort stopLe
    (generate_compliance_plan_core T D c route s).rest_stops
  rw [List.Sorted, List.pairwise_map]
  exact h

theorem claim_C6_sorted_by_meta_ordering_witness :
    (0:ℚ) < 30 ∧ (0:ℚ) ≤ 0 ∧ (0:ℚ) < 70 ∧ (3000:ℚ) ≠ 0
      ∧ List.Sorted (· ≤ ·)
          ((sortStopsByDistance
            (generate_compliance_plan_core 30 3000 0 [(0,0),(1,1)] 0).rest_stops).map
              fun stop => stop.distance_from_start_miles) :=
  ⟨by norm_num, le_refl 0, by norm_num, by norm_num,
    (claim_C6_sorted_by_meta_ordering 30 3000 0 [(0,0),(1,1)] 0
      (by norm_num) (le_refl 0) (by norm_num) (by norm_num)).2⟩

theorem geodesicModel_nonneg (a b : Coord) : 0 ≤ geodesicModel a b := by
  unfold geodesicModel
  positivity

/-- C7 counterexample: the claimed postcondition `distance_miles > 0` fails
for the fully degenerate triple (all three coordinates identical): any
provider failure triggers the fallback, whose distance is the sum of two
geodesic legs, and a great-circle distance between identical coordinates is
0, so the fallback distance (and hence the duration) is 0, not positive. -/
theorem claim_C7_counterexample :
    ¬ 0 < (calculate_route geodesicModel none
        { lat := 0, lng := 0 } { lat := 0, lng := 0 }
        { lat := 0, lng := 0 }).distance_miles := by
  norm_num [calculate_route, calculate_fallback_route, geodesicModel]

/-- C7 amended: the route estimation is total (any provider failure falls
back), and in the fallback case `distance_miles` equals
`geodesic(current, pickup) + geodesic(pickup, dropoff)`, `duration_hours`
equals `distance_miles / 55`, the polyline has at least 2 points (exactly 3),
and distance and duration are nonnegative — strictly positive exactly when
the two geodesic legs cover positive distance, which fails only for a
degenerate triple. -/
theorem claim_C7_fallback_contract (geodesic : Coord → Coord → ℚ)
    (current pickup dropoff : Coord) (hnn : ∀ a b, 0 ≤ geodesic a b) :
    (calculate_route geodesic none current pickup dropoff).distance_miles
        = geodesic current pickup + geodesic pickup dropoff
      ∧ (calculate_route geodesic none current pickup dropoff).duration_hours
        = (geodesic current pickup + geodesic pickup dropoff) / 55
      ∧ 2 ≤ (calculate_route geodesic none current pickup dropoff).coordinates.length
      ∧ 0 ≤ (calculate_route geodesic none current pickup dropoff).distance_miles
      ∧ 0 ≤ (calculate_route geodesic none current pickup dropoff).duration_hours
      ∧ (0 < geodesic current pickup + geodesic pickup dropoff →
          0 < (calculate_route geodesic none current pickup dropoff).distance_miles
            ∧ 0 < (calculate_route geodesic none current pickup dropoff).duration_hours) := by
  have hsum : 0 ≤ geodesic current pickup + geodesic pickup dropoff :=
    add_nonneg (hnn _ _) (hnn _ _)
  refine ⟨rfl, rfl, by norm_num [calculate_route, calculate_fallback_route], ?_, ?_, ?_⟩
  · exact hsum
  · show 0 ≤ (geodesic current pickup + geodesic pickup dropoff) / 55
    positivity
  · intro hpos
    refine ⟨hpos, ?_⟩
    show 0 < (geodesic current pickup + geodesic pickup dropoff) / 55
    positivity

theorem claim_C7_fallback_contract_witness :
    0 ≤ geodesicModel { lat := 0, lng := 0 } { lat := 3, lng := 4 }
      ∧ (calculate_route geodesicModel none
          { lat := 0, lng := 0 } { lat := 3, lng := 4 } { lat := 5, lng := 6 }).distance_miles
          = geodesicModel { lat := 0, lng := 0 } { lat := 3, lng := 4 }
            + geodesicModel { lat := 3, lng := 4 } { lat := 5, lng := 6 }
      ∧ (calculate_route geodesicModel none
          { lat := 0, lng := 0 } { lat := 3, lng := 4 } { lat := 5, lng := 6 }).duration_hours
          = (geodesicModel { lat := 0, lng := 0 } { lat := 3, lng := 4 }
            + geodesicModel { lat := 3, lng := 4 } { lat := 5, lng := 6 }) / 55
      ∧ 2 ≤ (calculate_route geodesicModel none
          { lat := 0, lng := 0 } { lat := 3, lng := 4 } { lat := 5, lng := 6 }).coordinates.length := by
  have h := claim_C7_fallback_contract geodesicModel
    { lat := 0, lng := 0 } { lat := 3, lng := 4 } { lat := 5, lng := 6 }
    geodesicModel_nonneg
  exact ⟨geodesicModel_nonneg _ _, h.1, h.2.1, h.2.2.1⟩

theorem headD_eq_getD_zero (l : List (ℚ × ℚ)) (d : ℚ × ℚ) : l.headD d = l.getD 0 d := by
  cases l <;> rfl

theorem getLastD_eq_getD_last (l : List (ℚ × ℚ)) (d : ℚ × ℚ) (h : l ≠ []) :
    l.getLastD d = l.getD (l.length - 1) d := by
  induction l generalizing d with
  | nil => simp at h
  | cons a t ih =>
      cases t with
      | nil => rfl
      | cons b t2 =>
          rw [List.getLastD_cons, ih a (by simp)]
          simp [List.getD]

theorem interpolate_of_le_zero (P : List (ℚ × ℚ)) (p : ℚ) (hp : p ≤ 0) :
    interpolate_location P p =
      { lat := (P.getD 0 (0, 0)).1, lng := (P.getD 0 (0, 0)).2
        address := "Route location" } := by
  simp only [interpolate_location]
  rw [if_pos (Or.inr hp), headD_eq_getD_zero]

theorem interpolate_of_one_le (P : List (ℚ × ℚ)) (p : ℚ) (hP : P ≠ []) (hp : 1 ≤ p) :
    interpolate_location P p =
      { lat := (P.getD (P.length - 1) (0, 0)).1
        lng := (P.getD (P.length - 1) (0, 0)).2
        address := "Route location" } := by
  simp only [interpolate_location]
  rw [if_neg (by push_neg; exact ⟨hP, by linarith⟩), if_pos hp,
    getLastD_eq_getD_last P _ hP]

theorem interpolate_of_middle (P : List (ℚ × ℚ)) (p : ℚ) (hP : P ≠ [])
    (h0 : 0 < p) (h1 : p < 1) :
    interpolate_location P p =
      { lat := (P.getD (⌊p * ((P.length - 1 : ℕ) : ℚ)⌋).toNat (0, 0)).1
        lng := (P.getD (⌊p * ((P.length - 1 : ℕ) : ℚ)⌋).toNat (0, 0)).2
        address := "Mile marker " ++ toString (⌊p * 1000⌋).toNat } := by
  simp only [interpolate_location]
  rw [if_neg (by push_neg; exact ⟨hP, by linarith⟩), if_neg (by linarith)]

theorem interpIndex_mono (n : ℕ) (q q' : ℚ) (hqq : q ≤ q') :
    interpIndex n q ≤ interpIndex n q' := by
  unfold interpIndex
  split_ifs with hq0 hq'0 hq'1 hq1 hq'0 hq'1
  · exact le_refl 0
  · exact Nat.zero_le _
  · exact Nat.zero_le _
  · linarith
  · exact le_refl (n - 1)
  · linarith
  · linarith
  · have hfl : ⌊q * ((n - 1 : ℕ) : ℚ)⌋ ≤ ((n - 1 : ℕ) : ℤ) := by
      have hle : q * ((n - 1 : ℕ) : ℚ) ≤ ((n - 1 : ℕ) : ℚ) :=
        mul_le_of_le_one_left (by positivity) (by linarith)
      calc ⌊q * ((n - 1 : ℕ) : ℚ)⌋ ≤ ⌊((n - 1 : ℕ) : ℚ)⌋ := Int.floor_le_floor hle
      _ = ((n - 1 : ℕ) : ℤ) := Int.floor_natCast _
    exact Int.toNat_le.mpr hfl
  · have : (0:ℚ) < ((n - 1 : ℕ) : ℚ) ∨ ((n - 1 : ℕ) : ℚ) = 0 := by
      rcases Nat.eq_zero_or_pos (n - 1) with h | h
      · right; exact_mod_cast h
      · left; exact_mod_cast h
    exact Nat.le_of_lt_succ (by
      have hmul : q * ((n - 1 : ℕ) : ℚ) ≤ q' * ((n - 1 : ℕ) : ℚ) :=
        mul_le_mul_of_nonneg_right hqq (by positivity)
      have := Int.toNat_le_toNat (Int.floor_le_floor hmul)
      omega)

/-- C8: for every non-empty polyline, `_interpolate_location` returns the
first point labelled "Route location" whenever `progress ≤ 0`, the last point
labelled "Route location" whenever `progress ≥ 1`, and for `0 < progress < 1`
the point at index `⌊progress · (|P| − 1)⌋` labelled with mile marker
`⌊progress · 1000⌋`; the index of the returned point (`interpIndex`) is
non-decreasing in the progress fraction. -/
theorem claim_C8_interpolate_contract (P : List (ℚ × ℚ)) (p q q' : ℚ)
    (hP : P ≠ []) (hqq : q ≤ q') :
    (p ≤ 0 → interpolate_location P p =
        { lat := (P.getD 0 (0, 0)).1, lng := (P.getD 0 (0, 0)).2
          address := "Route location" })
      ∧ (1 ≤ p → interpolate_location P p =
          { lat := (P.getD (P.length - 1) (0, 0)).1
            lng := (P.getD (P.length - 1) (0, 0)).2
            address := "Route location" })
      ∧ (0 < p → p < 1 → interpolate_location P p =
          { lat := (P.getD (⌊p * ((P.length - 1 : ℕ) : ℚ)⌋).toNat (0, 0)).1
            lng := (P.getD (⌊p * ((P.length - 1 : ℕ) : ℚ)⌋).toNat (0, 0)).2
            address := "Mile marker " ++ toString (⌊p * 1000⌋).toNat })
      ∧ interpIndex P.length q ≤ interpIndex P.length q' :=
  ⟨fun hp => interpolate_of_le_zero P p hp,
   fun hp => interpolate_of_one_le P p hP hp,
   fun h0 h1 => interpolate_of_middle P p hP h0 h1,
   interpIndex_mono P.length q q' hqq⟩

theorem claim_C8_interpolate_contract_witness :
    ([((0:ℚ),(0:ℚ)), (1,1), (2,2)] ≠ ([] : List (ℚ × ℚ)))
      ∧ ((1:ℚ)/4 ≤ (3:ℚ)/4)
      ∧ ((1:ℚ)/2 ≤ 0 → interpolate_location [((0:ℚ),(0:ℚ)), (1,1), (2,2)] (1/2) =
          { lat := 0, lng := 0, address := "Route location" })
      ∧ interpIndex 3 (1/4) ≤ interpIndex 3 (3/4) := by
  have h := claim_C8_interpolate_contract [((0:ℚ),(0:ℚ)), (1,1), (2,2)]
    (1/2) (1/4) (3/4) (by simp) (by norm_num)
  exact ⟨by simp, by norm_num, fun hp => by rw [h.1 hp]; rfl, h.2.2.2⟩

/-- C9: `start_trip` performs no state-transition check: whatever the prior
status (including completed and cancelled), it sets the status to active,
overwrites `trip_start_time` with the current time and reports success; only
cancel-after-complete and complete-after-cancel are guarded (in `cancel_trip`
and `end_trip` respectively), each leaving the trip unchanged with a 403. -/
theorem claim_C9_start_trip_unguarded (t : TripState) (now : ℚ) :
    (start_trip t now).trip.status = TripStatus.active
      ∧ (start_trip t now).trip.trip_start_time = some now
      ∧ (start_trip t now).http_status = 200
      ∧ (start_trip t now).message = "Trip started successfully"
      ∧ (t.status = TripStatus.cancelled →
          end_trip t now =
            { trip := t, http_status := 403
              message := "Cannot complete a cancelled trip" })
      ∧ (t.status ≠ TripStatus.cancelled →
          (end_trip t now).trip.status = TripStatus.completed
            ∧ (end_trip t now).http_status = 200)
      ∧ (t.status = TripStatus.completed →
          cancel_trip t now =
            { trip := t, http_status := 403, message := "Cannot cancel trip" })
      ∧ (t.status ≠ TripStatus.completed →
          (cancel_trip t now).trip.status = TripStatus.cancelled
            ∧ (cancel_trip t now).http_status = 200) := by
  refine ⟨rfl, rfl, rfl, rfl, ?_, ?_, ?_, ?_⟩
  · intro h; simp [end_trip, h]
  · intro h; simp [end_trip, h]
  · intro h; simp [cancel_trip, h]
  · intro h; simp [cancel_trip, h]

theorem claim_C9_start_trip_unguarded_witness :
    (start_trip ⟨TripStatus.completed, some 1, some 2⟩ 5).trip.status = TripStatus.active
      ∧ (start_trip ⟨TripStatus.completed, some 1, some 2⟩ 5).trip.trip_start_time = some 5
      ∧ (start_trip ⟨TripStatus.cancelled, none, none⟩ 7).trip.status = TripStatus.active
      ∧ (start_trip ⟨TripStatus.cancelled, none, none⟩ 7).message
          = "Trip started successfully" := by
  have h1 := claim_C9_start_trip_unguarded ⟨TripStatus.completed, some 1, some 2⟩ 5
  have h2 := claim_C9_start_trip_unguarded ⟨TripStatus.cancelled, none, none⟩ 7
  exact ⟨h1.1, h1.2.1, h2.1, h2.2.2.2.1⟩

/-- C10: an `add_log` request whose payload fails serializer validation still
returns the 201 "Log added successfully" response while persisting nothing;
only exceptions raised during save — the model-level "Duration must be
positive" and "Daily driving limit of 11 hours exceeded" rejections of
`ELDLog.clean` — produce a 400 error response (also leaving the store
unchanged). -/
theorem claim_C10_add_log_silent_success (stored : List LogEntry) (e : LogEntry) :
    add_log false stored e =
        { http_status := 201, message := "Log added successfully", stored := stored }
      ∧ (e.duration_hours ≤ 0 →
          add_log true stored e =
            { http_status := 400, message := "Duration must be positive"
              stored := stored })
      ∧ (¬ e.duration_hours ≤ 0 → e.duty_status = "driving" →
          11 < dailyDrivingTotal stored e + e.duration_hours →
          add_log true stored e =
            { http_status := 400
              message := "Daily driving limit of 11 hours exceeded"
              stored := stored }) := by
  refine ⟨rfl, ?_, ?_⟩
  · intro h
    simp [add_log, eldlog_clean, h]
  · intro h hdrv hlim
    simp [add_log, eldlog_clean, h, hdrv, hlim]

theorem claim_C10_add_log_silent_success_witness :
    add_log false [] { log_date := 0, duty_status := "driving", duration_hours := 3 } =
        { http_status := 201, message := "Log added successfully", stored := [] }
      ∧ add_log true [] { log_date := 0, duty_status := "driving", duration_hours := -1 } =
        { http_status := 400, message := "Duration must be positive", stored := [] }
      ∧ add_log true [{ log_date := 0, duty_status := "driving", duration_hours := 9 }]
          { log_date := 0, duty_status := "driving", duration_hours := 3 } =
        { http_status := 400, message := "Daily driving limit of 11 hours exceeded"
          stored := [{ log_date := 0, duty_status := "driving", duration_hours := 9 }] } := by
  have h1 := claim_C10_add_log_silent_success []
    { log_date := 0, duty_status := "driving", duration_hours := 3 }
  have h2 := claim_C10_add_log_silent_success []
    { log_date := 0, duty_status := "driving", duration_hours := -1 }
  have h3 := claim_C10_add_log_silent_success
    [{ log_date := 0, duty_status := "driving", duration_hours := 9 }]
    { log_date := 0, duty_status := "driving", duration_hours := 3 }
  refine ⟨h1.1, h2.2.1 (by norm_num), h3.2.2 (by norm_num) rfl ?_⟩
  norm_num [dailyDrivingTotal, dailyDrivingTotal.drivingTotalOn]
